import Mathlib

namespace AISent

/-! Shallow embedding of the sentiment-analysis core of the repository:
`src/server/services/searchService.ts` (deduplication),
`src/server/services/analysisService.ts` (LLM adapter and local fallback
classifier) and `src/server/services/monitorService.ts` (monitoring sweep),
together with the `analysis.analyze` route of `src/server/routers.ts`.
Texts are modelled as lists of characters, JS numbers holding integer
counts/percentages as `Nat`/`Int`, and external effects (the LLM call,
database writes, notifications) as explicit parameters and effect records. -/

/-- The whitespace characters relevant to the JavaScript regular expression
`\s` here (`deduplicateResults` replaces runs of these by one space). -/
def jsWhitespace (c : Char) : Bool :=
  c = ' ' || c = '\t' || c = '\n' || c = '\r' || c = '\x0b' || c = '\x0c' || c = ' '

/-- `text.toLowerCase()` on the character-list model of a JS string. -/
def jsLower (t : List Char) : List Char := t.map Char.toLower

/-- One step of `.replace(/\s+/g, " ")`: `sawWs` records whether the previous
character belonged to a whitespace run already replaced by a single space. -/
def collapseWsAux : Bool → List Char → List Char
  | _, [] => []
  | sawWs, c :: rest =>
    if jsWhitespace c then
      if sawWs then collapseWsAux true rest else ' ' :: collapseWsAux true rest
    else
      c :: collapseWsAux false rest

/-- `.replace(/\s+/g, " ")`: every maximal run of whitespace becomes one space. -/
def collapseWs (t : List Char) : List Char := collapseWsAux false t

/-- The normalization key `result.text.toLowerCase().slice(0, 100).replace(/\s+/g, " ")`
computed by `deduplicateResults` (searchService.ts line 340). -/
def normKey (t : List Char) : List Char := collapseWs ((jsLower t).take 100)

/-- Provenance bucket of a search result (searchService.ts `SearchResult.platform`). -/
inductive Platform
  | twitter
  | reddit
  | news
  | web
  deriving DecidableEq, Repr

/-- A retrieved snippet (searchService.ts `SearchResult`). -/
structure SearchResult where
  text : List Char
  source : String
  author : Option String := none
  url : Option String := none
  platform : Platform := Platform.web
  deriving DecidableEq, Repr

/-- The loop of `deduplicateResults` (searchService.ts lines 338–346): `seen`
is the JS `Set<string>` of keys of the results kept so far (modelled as the
list of its elements); a result is kept when its key is not in `seen` and its
text is longer than 20 characters, and only then is its key added. -/
def dedupeGo (seen : List (List Char)) : List SearchResult → List SearchResult
  | [] => []
  | r :: rest =>
    let key := normKey r.text
    if key ∉ seen ∧ 20 < r.text.length then
      r :: dedupeGo (key :: seen) rest
    else
      dedupeGo seen rest

/-- `deduplicateResults` (searchService.ts lines 334–349). -/
def deduplicateResults (results : List SearchResult) : List SearchResult :=
  dedupeGo [] results

/-- Modelled from the spec wording of §4.1, for the refinement part of the
dedup claim: keep a snippet iff its text length exceeds 20 and its
normalization key did not occur on an earlier kept snippet (`keptKeys` holds
the keys of the snippets kept so far). -/
def dedupeSpecGo (keptKeys : List (List Char)) : List SearchResult → List SearchResult
  | [] => []
  | r :: rest =>
    if 20 < r.text.length ∧ normKey r.text ∉ keptKeys then
      r :: dedupeSpecGo (normKey r.text :: keptKeys) rest
    else
      dedupeSpecGo keptKeys rest

/-- The deduplicator as §4.1 of the spec words it. -/
def dedupeSpec (results : List SearchResult) : List SearchResult :=
  dedupeSpecGo [] results

/-- A bucket exemplar `{ text, source, author }` as built by analysisService.ts. -/
structure Comment where
  text : List Char
  source : String
  author : Option String
  deriving DecidableEq, Repr

/-- `{ text: r.text, source: r.source, author: r.author }`. -/
def toComment (r : SearchResult) : Comment :=
  { text := r.text, source := r.source, author := r.author }

/-- Overall sentiment labels (analysisService.ts `SentimentAnalysis.overallSentiment`). -/
inductive Sentiment
  | positive
  | negative
  | neutral
  | mixed
  deriving DecidableEq, Repr

/-- The result record of `analyzeSentiment` / `getFallbackAnalysis`
(analysisService.ts `SentimentAnalysis`). -/
structure SentimentAnalysis where
  overallSentiment : Sentiment
  positiveRatio : Int
  negativeRatio : Int
  neutralRatio : Int
  summary : String
  keyThemes : List String
  positiveComments : List Comment
  negativeComments : List Comment
  neutralComments : List Comment
  deriving DecidableEq, Repr

/-- `positiveKeywords` of `getFallbackAnalysis` (analysisService.ts line 167). -/
def positiveKeywords : List (List Char) :=
  ["great", "excellent", "amazing", "love", "best", "impressed", "recommend",
    "fantastic", "helpful", "powerful"].map String.toList

/-- `negativeKeywords` of `getFallbackAnalysis` (analysisService.ts line 168). -/
def negativeKeywords : List (List Char) :=
  ["bad", "terrible", "awful", "hate", "worst", "disappointed", "issues",
    "problems", "expensive", "concerns"].map String.toList

/-- `keywords.some(k => text.includes(k))` for a lower-cased text:
`text.includes(k)` is substring containment, i.e. `k` is an infix of `t`. -/
def hasKeyword (keywords : List (List Char)) (t : List Char) : Bool :=
  keywords.any fun k => decide (k <:+: t)

/-- `positiveKeywords.some(k => result.text.toLowerCase().includes(k))`. -/
def hasPos (r : SearchResult) : Bool :=
  hasKeyword positiveKeywords (jsLower r.text)

/-- `negativeKeywords.some(k => result.text.toLowerCase().includes(k))`. -/
def hasNeg (r : SearchResult) : Bool :=
  hasKeyword negativeKeywords (jsLower r.text)

/-- Sentiment buckets of the classification loop. -/
inductive Bucket
  | positive
  | negative
  | neutral
  deriving DecidableEq, Repr

/-- The bucket the fallback loop routes a single candidate into: positive
keyword and no negative one → positive; negative and no positive → negative;
otherwise neutral (analysisService.ts lines 185–194). -/
def bucketOf (r : SearchResult) : Bucket :=
  if hasPos r && !hasNeg r then Bucket.positive
  else if hasNeg r && !hasPos r then Bucket.negative
  else Bucket.neutral

/-- The mutable state of the `for` loop of `getFallbackAnalysis`
(analysisService.ts lines 170–195). -/
structure FallbackState where
  positiveCount : Nat
  negativeCount : Nat
  neutralCount : Nat
  positiveComments : List Comment
  negativeComments : List Comment
  neutralComments : List Comment
  deriving DecidableEq, Repr

/-- State before the loop: zero counts, empty comment lists. -/
def initFallbackState : FallbackState :=
  { positiveCount := 0, negativeCount := 0, neutralCount := 0,
    positiveComments := [], negativeComments := [], neutralComments := [] }

/-- The `for (const result of searchResults)` loop of `getFallbackAnalysis`:
counts the candidate in one bucket and pushes it onto that bucket's comment
list while that list still has fewer than 5 entries. -/
def fallbackLoop (s : FallbackState) : List SearchResult → FallbackState
  | [] => s
  | r :: rest =>
    let c := toComment r
    if hasPos r && !hasNeg r then
      fallbackLoop
        { s with
          positiveCount := s.positiveCount + 1,
          positiveComments :=
            if s.positiveComments.length < 5 then s.positiveComments ++ [c]
            else s.positiveComments } rest
    else if hasNeg r && !hasPos r then
      fallbackLoop
        { s with
          negativeCount := s.negativeCount + 1,
          negativeComments :=
            if s.negativeComments.length < 5 then s.negativeComments ++ [c]
            else s.negativeComments } rest
    else
      fallbackLoop
        { s with
          neutralCount := s.neutralCount + 1,
          neutralComments :=
            if s.neutralComments.length < 5 then s.neutralComments ++ [c]
            else s.neutralComments } rest

/-- `Math.round((count / total) * 100)` for non-negative integer `count` and
positive integer `total`, computed on the exact rational:
`Math.round(x) = ⌊x + 1/2⌋` for `x ≥ 0`, so the value is
`⌊(200·count + total) / (2·total)⌋`. -/
def jsRound100 (count total : Nat) : Nat :=
  (200 * count + total) / (2 * total)

/-- Chinese label fragment used in the fallback summary template. -/
def summaryTone (s : Sentiment) : String :=
  match s with
  | Sentiment.positive => "偏正面"
  | Sentiment.negative => "偏负面"
  | Sentiment.mixed => "呈现两极分化"
  | Sentiment.neutral => "较为中立"

/-- Chinese grade fragment used in the fallback summary template. -/
def summaryGrade (s : Sentiment) : String :=
  match s with
  | Sentiment.positive => "较好的"
  | Sentiment.negative => "较差的"
  | _ => "中等的"

/-- The template string built by `getFallbackAnalysis` (analysisService.ts
lines 213–224), assembled by concatenation. -/
def fallbackSummary (productName : String) (nResults : Nat)
    (overall : Sentiment) (posR negR neuR : Int) : String :=
  "基于对 " ++ toString nResults ++ " 条用户评论的分析，" ++ productName ++
    " 的整体评价" ++ summaryTone overall ++ "。正面评价占 " ++ toString posR ++
    "%，负面评价占 " ++ toString negR ++ "%，中立评价占 " ++ toString neuR ++
    "%。\n\n用户主要关注产品的功能特性、使用体验、性价比等方面。正面评价主要集中在产品的核心功能和创新性上，而负面评价则多涉及价格、稳定性或特定使用场景下的局限性。\n\n总体而言，" ++
    productName ++ " 在市场上获得了" ++ summaryGrade overall ++
    "用户反馈，建议关注用户提出的具体问题以持续改进产品。"

/-- `getFallbackAnalysis` (analysisService.ts lines 165–230): keyword-based
bucket counts, rounded percentage ratios with the neutral ratio defined as
the remainder to 100, a threshold-based overall label, and the first five
comments per bucket. `total` is `searchResults.length || 1`. -/
def getFallbackAnalysis (productName : String)
    (searchResults : List SearchResult) : SentimentAnalysis :=
  let s := fallbackLoop initFallbackState searchResults
  let total : Nat := if searchResults.length = 0 then 1 else searchResults.length
  let positiveRatio : Int := (jsRound100 s.positiveCount total : Nat)
  let negativeRatio : Int := (jsRound100 s.negativeCount total : Nat)
  let neutralRatio : Int := 100 - positiveRatio - negativeRatio
  let overallSentiment : Sentiment :=
    if positiveRatio > 60 then Sentiment.positive
    else if negativeRatio > 60 then Sentiment.negative
    else if positiveRatio > 40 || negativeRatio > 40 then Sentiment.mixed
    else Sentiment.neutral
  { overallSentiment := overallSentiment,
    positiveRatio := positiveRatio,
    negativeRatio := negativeRatio,
    neutralRatio := neutralRatio,
    summary := fallbackSummary productName searchResults.length overallSentiment
      positiveRatio negativeRatio neutralRatio,
    keyThemes := ["产品功能", "用户体验", "性价比", "技术能力", "客户服务"],
    positiveComments := s.positiveComments,
    negativeComments := s.negativeComments,
    neutralComments := s.neutralComments }

/-- The JSON object parsed from the LLM response content (analysisService.ts
line 128). The scalar fields and the theme list are modelled as present (the
request uses a strict JSON schema); the three exemplar index lists are
modelled as possibly absent, exactly the case the code itself guards with
`analysis.positiveIndices || []`. Indices are 1-based JS integers. -/
structure LLMAnalysis where
  overallSentiment : Sentiment
  positiveRatio : Int
  negativeRatio : Int
  neutralRatio : Int
  summary : String
  keyThemes : List String
  positiveIndices : Option (List Int)
  negativeIndices : Option (List Int)
  neutralIndices : Option (List Int)
  deriving DecidableEq, Repr

/-- Outcome of the LLM interaction inside the `try` block of
`analyzeSentiment`: the `invokeLLM` call threw (unreachable capability,
timeout, provider error), the response carried no message content
(`throw new Error("No response from LLM")`), `JSON.parse` threw on the
content, or a parsed analysis object was obtained. -/
inductive LLMOutcome
  | llmError
  | noContent
  | unparseable
  | parsed (a : LLMAnalysis)
  deriving DecidableEq, Repr

/-- `getComments` (analysisService.ts lines 131–142): keep the 1-based
indices within `[1, searchResults.length]`, truncate to the first five, and
map each to the corresponding candidate's text, source and author. The
out-of-range lookup arm is unreachable after the filter. -/
def getComments (searchResults : List SearchResult) (indices : List Int) :
    List Comment :=
  ((indices.filter fun i =>
      decide (1 ≤ i ∧ i ≤ (searchResults.length : Int))).take 5).map fun i =>
    match searchResults[(i - 1).toNat]? with
    | some r => toComment r
    | none => { text := [], source := "", author := none }

/-- Modelled from the spec wording of §4.2 and §9 for the exemplar-selection
claim: drop indices outside `[1, len(candidates)]`, remove duplicate indices
(keeping the first occurrence), truncate to at most 5, then map to snippets. -/
def firstOccurrences : List Int → List Int
  | [] => []
  | i :: rest => i :: (firstOccurrences rest).filter fun j => decide (j ≠ i)

/-- Modelled from the spec wording: exemplar selection with index dedup. -/
def getCommentsSpec (searchResults : List SearchResult) (indices : List Int) :
    List Comment :=
  ((firstOccurrences (indices.filter fun i =>
      decide (1 ≤ i ∧ i ≤ (searchResults.length : Int)))).take 5).map fun i =>
    match searchResults[(i - 1).toNat]? with
    | some r => toComment r
    | none => { text := [], source := "", author := none }

/-- `analyzeSentiment` (analysisService.ts lines 19–160): on a parsed
response, build the summary directly from the response fields, mapping each
absent index list to `[]` (`analysis.positiveIndices || []`); on any error in
the call or in handling the response, the `catch` returns
`getFallbackAnalysis` instead. -/
def analyzeSentiment (productName : String)
    (searchResults : List SearchResult) (outcome : LLMOutcome) :
    SentimentAnalysis :=
  match outcome with
  | LLMOutcome.parsed a =>
    { overallSentiment := a.overallSentiment,
      positiveRatio := a.positiveRatio,
      negativeRatio := a.negativeRatio,
      neutralRatio := a.neutralRatio,
      summary := a.summary,
      keyThemes := a.keyThemes,
      positiveComments := getComments searchResults (a.positiveIndices.getD []),
      negativeComments := getComments searchResults (a.negativeIndices.getD []),
      neutralComments := getComments searchResults (a.neutralIndices.getD []) }
  | _ => getFallbackAnalysis productName searchResults

/-- Sum of the three ratio fields of a produced summary. -/
def ratioSum (a : SentimentAnalysis) : Int :=
  a.positiveRatio + a.negativeRatio + a.neutralRatio

/-- Monitoring cadence (monitorService.ts `frequency`). -/
inductive Frequency
  | daily
  | weekly
  | monthly
  deriving DecidableEq, Repr

/-- The task record consumed by `executeMonitorTask` (monitorService.ts
lines 36–46). -/
structure MonitorTask where
  id : Nat
  userId : Nat
  productName : String
  frequency : Frequency
  notifyOnSignificantChange : Bool
  significantChangeThreshold : Int
  notifyEmail : Bool
  notifyInApp : Bool
  lastSentimentScore : Option Int
  deriving DecidableEq, Repr

/-- Direction of a detected sentiment change (the `changeDirection` local of
monitorService.ts line 97: `"上升"` is up, `"下降"` is down). -/
inductive Direction
  | up
  | down
  deriving DecidableEq, Repr

/-- The externally visible effects of one `executeMonitorTask` run: whether
`createAnalysisRecord` ran, whether `updateMonitorTask` ran and the
`lastSentimentScore` it wrote, the change-detection locals, and which
notification calls were made. -/
structure RunEffects where
  analysisSaved : Bool
  taskUpdated : Bool
  newLastSentimentScore : Option Int
  hasSignificantChange : Bool
  changeAmount : Int
  changeDirection : Option Direction
  inAppNotified : Bool
  ownerNotified : Bool
  deriving DecidableEq, Repr

/-- The effect record of a run that returned before persisting anything. -/
def noEffects : RunEffects :=
  { analysisSaved := false, taskUpdated := false, newLastSentimentScore := none,
    hasSignificantChange := false, changeAmount := 0, changeDirection := none,
    inAppNotified := false, ownerNotified := false }

/-- `executeMonitorTask` (monitorService.ts lines 36–129), with the retrieval
result and the LLM outcome as parameters: zero retrieved results short-circuit
before any persistence; otherwise the analysis is saved, the change locals are
computed (`changeAmount` and `hasSignificantChange` stay `0`/`false` unless a
previous score exists and `notifyOnSignificantChange` is set), the task is
updated with the new score, and notifications fire per channel flag when a
significant change was detected. `task.lastSentimentScore || 0` is
`Option.getD 0`. -/
def executeMonitorTask (task : MonitorTask) (results : List SearchResult)
    (outcome : LLMOutcome) : RunEffects :=
  if results.length = 0 then noEffects
  else
    let analysis := analyzeSentiment task.productName results outcome
    let currentSentimentScore := analysis.positiveRatio
    let changeAmount : Int :=
      match task.lastSentimentScore with
      | some prev =>
        if task.notifyOnSignificantChange then |currentSentimentScore - prev| else 0
      | none => 0
    let hasSignificantChange : Bool :=
      match task.lastSentimentScore with
      | some prev =>
        task.notifyOnSignificantChange &&
          decide (task.significantChangeThreshold ≤ |currentSentimentScore - prev|)
      | none => false
    let changeDirection : Option Direction :=
      if hasSignificantChange then
        some
          (if currentSentimentScore > task.lastSentimentScore.getD 0 then
            Direction.up
          else Direction.down)
      else none
    { analysisSaved := true,
      taskUpdated := true,
      newLastSentimentScore := some currentSentimentScore,
      hasSignificantChange := hasSignificantChange,
      changeAmount := changeAmount,
      changeDirection := changeDirection,
      inAppNotified := hasSignificantChange && task.notifyInApp,
      ownerNotified := hasSignificantChange && task.notifyEmail }

/-- `executeMonitoringTasks` (monitorService.ts lines 16–31), with each
task's run modelled by `run`: the loop body is wrapped in `try`/`catch`, so a
throwing run (`Except.error`, logged by the catch) is recorded and the loop
continues with the remaining tasks. -/
def executeMonitoringTasks (run : MonitorTask → Except String RunEffects) :
    List MonitorTask → List (MonitorTask × Except String RunEffects)
  | [] => []
  | t :: rest => (t, run t) :: executeMonitoringTasks run rest

/-- The retrieval-and-analysis part of the `analysis.analyze` route
(routers.ts, `analysisRouter.analyze`): with zero search results it throws a
NOT_FOUND `TRPCError` ("未找到相关评论…"), modelled as `none`; otherwise it
returns the summary from `analyzeSentiment`. -/
def analyzeRoute (productName : String) (results : List SearchResult)
    (outcome : LLMOutcome) : Option SentimentAnalysis :=
  if results.length = 0 then none
  else some (analyzeSentiment productName results outcome)

def posSnippet : SearchResult := { text := String.toList "great", source := "Twitter" }

def negSnippet : SearchResult := { text := String.toList "bad", source := "Reddit" }

def llm30 : LLMAnalysis :=
  { overallSentiment := Sentiment.neutral, positiveRatio := 30,
    negativeRatio := 30, neutralRatio := 30, summary := "ok", keyThemes := [],
    positiveIndices := some [], negativeIndices := some [],
    neutralIndices := some [] }

def llmNoIdx : LLMAnalysis :=
  { overallSentiment := Sentiment.neutral, positiveRatio := 10,
    negativeRatio := 10, neutralRatio := 80, summary := "ok", keyThemes := [],
    positiveIndices := none, negativeIndices := none, neutralIndices := none }

def task50 : MonitorTask :=
  { id := 1, userId := 1, productName := "ChatGPT",
    frequency := Frequency.daily, notifyOnSignificantChange := false,
    significantChangeThreshold := 5, notifyEmail := false, notifyInApp := true,
    lastSentimentScore := some 50 }

def llm100 : LLMAnalysis :=
  { overallSentiment := Sentiment.positive, positiveRatio := 100,
    negativeRatio := 0, neutralRatio := 0, summary := "ok", keyThemes := [],
    positiveIndices := some [1], negativeIndices := some [],
    neutralIndices := some [] }

lemma dedupeGo_eq_specGo (l : List SearchResult) :
    ∀ seen : List (List Char), dedupeGo seen l = dedupeSpecGo seen l := by
  induction l with
  | nil => intro seen; rfl
  | cons r rest ih =>
    intro seen
    by_cases hk : normKey r.text ∈ seen <;> by_cases hl : 20 < r.text.length <;>
      simp [dedupeGo, dedupeSpecGo, hk, hl, ih]

lemma dedupeGo_sublist (l : List SearchResult) :
    ∀ seen : List (List Char), (dedupeGo seen l).Sublist l := by
  induction l with
  | nil => intro seen; simp [dedupeGo]
  | cons r rest ih =>
    intro seen
    simp only [dedupeGo]
    split_ifs with h
    · exact List.Sublist.cons₂ _ (ih _)
    · exact List.Sublist.cons _ (ih _)

lemma dedupeGo_keys (l : List SearchResult) :
    ∀ seen : List (List Char),
      ((dedupeGo seen l).map fun r => normKey r.text).Nodup ∧
        ∀ k ∈ (dedupeGo seen l).map fun r => normKey r.text, k ∉ seen := by
  induction l with
  | nil => intro seen; simp [dedupeGo]
  | cons r rest ih =>
    intro seen
    simp only [dedupeGo]
    split_ifs with h
    · obtain ⟨hnd, hfresh⟩ := ih (normKey r.text :: seen)
      refine ⟨?_, ?_⟩
      · simp only [List.map_cons, List.nodup_cons]
        refine ⟨fun hmem => ?_, hnd⟩
        exact (hfresh _ hmem) (List.mem_cons_self _ _)
      · intro k hk
        simp only [List.map_cons, List.mem_cons] at hk
        rcases hk with hk | hk
        · exact hk ▸ h.1
        · exact fun hs => (hfresh _ hk) (List.mem_cons_of_mem _ hs)
    · exact ih seen

lemma dedupeGo_all_long (l : List SearchResult) :
    ∀ seen : List (List Char),
      (dedupeGo seen l).all (fun r => decide (20 < r.text.length)) = true := by
  induction l with
  | nil => intro seen; simp [dedupeGo]
  | cons r rest ih =>
    intro seen
    simp only [dedupeGo]
    split_ifs with h
    · simp [List.all_cons, h.2, ih]
    · exact ih seen

lemma fallbackLoop_counts (l : List SearchResult) :
    ∀ s : FallbackState,
      (fallbackLoop s l).positiveCount =
          s.positiveCount + (l.filter fun r => hasPos r && !hasNeg r).length ∧
        (fallbackLoop s l).negativeCount =
          s.negativeCount + (l.filter fun r => hasNeg r && !hasPos r).length ∧
        (fallbackLoop s l).neutralCount =
          s.neutralCount +
            (l.filter fun r =>
              !(hasPos r && !hasNeg r) && !(hasNeg r && !hasPos r)).length := by
  induction l with
  | nil => intro s; simp [fallbackLoop]
  | cons r rest ih =>
    intro s
    cases hp : hasPos r <;> cases hn : hasNeg r <;>
      simp [fallbackLoop, hp, hn, ih, List.filter_cons] <;> omega
lemma fallbackLoop_posComments (l : List SearchResult) :
    ∀ s : FallbackState,
      (fallbackLoop s l).positiveComments =
        s.positiveComments ++
          ((l.filter fun r => hasPos r && !hasNeg r).map toComment).take
            (5 - s.positiveComments.length) := by
  induction l with
  | nil => intro s; simp [fallbackLoop]
  | cons r rest ih =>
    intro s
    cases hp : hasPos r <;> cases hn : hasNeg r <;>
      simp [fallbackLoop, hp, hn, ih, List.filter_cons]
    by_cases hlen : s.positiveComments.length < 5
    · have h5 : 5 - s.positiveComments.length = (4 - s.positiveComments.length) + 1 := by
        omega
      have h4 : 5 - (s.positiveComments.length + 1) = 4 - s.positiveComments.length := by
        omega
      simp [hlen, h5, h4, List.take_succ_cons]
    · have h0 : 5 - s.positiveComments.length = 0 := by omega
      simp [hlen, h0]
lemma fallbackLoop_negComments (l : List SearchResult) :
    ∀ s : FallbackState,
      (fallbackLoop s l).negativeComments =
        s.negativeComments ++
          ((l.filter fun r => hasNeg r && !hasPos r).map toComment).take
            (5 - s.negativeComments.length) := by
  induction l with
  | nil => intro s; simp [fallbackLoop]
  | cons r rest ih =>
    intro s
    cases hp : hasPos r <;> cases hn : hasNeg r <;>
      simp [fallbackLoop, hp, hn, ih, List.filter_cons]
    by_cases hlen : s.negativeComments.length < 5
    · have h5 : 5 - s.negativeComments.length = (4 - s.negativeComments.length) + 1 := by
        omega
      have h4 : 5 - (s.negativeComments.length + 1) = 4 - s.negativeComments.length := by
        omega
      simp [hlen, h5, h4, List.take_succ_cons]
    · have h0 : 5 - s.negativeComments.length = 0 := by omega
      simp [hlen, h0]

lemma fallbackLoop_neuComments (l : List SearchResult) :
    ∀ s : FallbackState,
      (fallbackLoop s l).neutralComments =
        s.neutralComments ++
          ((l.filter fun r =>
              !(hasPos r && !hasNeg r) && !(hasNeg r && !hasPos r)).map
            toComment).take (5 - s.neutralComments.length) := by
  induction l with
  | nil => intro s; simp [fallbackLoop]
  | cons r rest ih =>
    intro s
    cases hp : hasPos r <;> cases hn : hasNeg r <;>
      simp [fallbackLoop, hp, hn, ih, List.filter_cons]
    all_goals
      by_cases hlen : s.neutralComments.length < 5
    case pos | pos =>
      have h5 : 5 - s.neutralComments.length = (4 - s.neutralComments.length) + 1 := by
        omega
      have h4 : 5 - (s.neutralComments.length + 1) = 4 - s.neutralComments.length := by
        omega
      simp [hlen, h5, h4, List.take_succ_cons]
    case neg | neg =>
      have h0 : 5 - s.neutralComments.length = 0 := by omega
      simp [hlen, h0]

lemma bucket_filter_partition (l : List SearchResult) :
    (l.filter fun r => hasPos r && !hasNeg r).length +
        (l.filter fun r => hasNeg r && !hasPos r).length +
        (l.filter fun r =>
          !(hasPos r && !hasNeg r) && !(hasNeg r && !hasPos r)).length =
      l.length := by
  induction l with
  | nil => simp
  | cons r rest ih =>
    cases hp : hasPos r <;> cases hn : hasNeg r <;>
      · simp [List.filter_cons, hp, hn] at ih ⊢
        omega

lemma bucketOf_pos (r : SearchResult) :
    decide (bucketOf r = Bucket.positive) = (hasPos r && !hasNeg r) := by
  cases hp : hasPos r <;> cases hn : hasNeg r <;> simp [bucketOf, hp, hn]

lemma bucketOf_neg (r : SearchResult) :
    decide (bucketOf r = Bucket.negative) = (hasNeg r && !hasPos r) := by
  cases hp : hasPos r <;> cases hn : hasNeg r <;> simp [bucketOf, hp, hn]

lemma bucketOf_neu (r : SearchResult) :
    decide (bucketOf r = Bucket.neutral) =
      (!(hasPos r && !hasNeg r) && !(hasNeg r && !hasPos r)) := by
  cases hp : hasPos r <;> cases hn : hasNeg r <;> simp [bucketOf, hp, hn]

lemma jsRound100_le (c t : Nat) (h1 : 1 ≤ t) (hc : c ≤ t) : jsRound100 c t ≤ 100 := by
  unfold jsRound100
  have h2 : 200 * c + t ≤ 201 * t := by omega
  have h3 : (201 * t) / (2 * t) = 100 := by
    have h4 : 201 * t = 2 * t * 100 + t := by ring
    rw [h4, Nat.mul_add_div (by omega)]
    simp [Nat.div_eq_of_lt (by omega : t < 2 * t)]
  calc (200 * c + t) / (2 * t) ≤ (201 * t) / (2 * t) := Nat.div_le_div_right h2
    _ = 100 := h3

lemma nat_div_add_div_le (a b k : Nat) (hk : 0 < k) : a / k + b / k ≤ (a + b) / k := by
  rw [Nat.le_div_iff_mul_le hk]
  have ha := Nat.div_mul_le_self a k
  have hb := Nat.div_mul_le_self b k
  calc (a / k + b / k) * k = a / k * k + b / k * k := by ring
    _ ≤ a + b := by omega

lemma jsRound100_sum_le (c1 c2 t : Nat) (h1 : 1 ≤ t) (hc : c1 + c2 ≤ t) :
    jsRound100 c1 t + jsRound100 c2 t ≤ 101 := by
  unfold jsRound100
  have h2 := nat_div_add_div_le (200 * c1 + t) (200 * c2 + t) (2 * t) (by omega)
  have h3 : 200 * c1 + t + (200 * c2 + t) ≤ 202 * t := by omega
  have h4 : (202 * t) / (2 * t) = 101 := by
    have h5 : 202 * t = 2 * t * 101 := by ring
    rw [h5, Nat.mul_div_cancel_left _ (by omega : 0 < 2 * t)]
  calc (200 * c1 + t) / (2 * t) + (200 * c2 + t) / (2 * t)
      ≤ (200 * c1 + t + (200 * c2 + t)) / (2 * t) := h2
    _ ≤ (202 * t) / (2 * t) := Nat.div_le_div_right h3
    _ = 101 := h4

lemma getFallback_posRatio (pname : String) (rs : List SearchResult) :
    (getFallbackAnalysis pname rs).positiveRatio =
      ((jsRound100 (fallbackLoop initFallbackState rs).positiveCount
        (if rs.length = 0 then 1 else rs.length) : Nat) : Int) := rfl

lemma getFallback_negRatio (pname : String) (rs : List SearchResult) :
    (getFallbackAnalysis pname rs).negativeRatio =
      ((jsRound100 (fallbackLoop initFallbackState rs).negativeCount
        (if rs.length = 0 then 1 else rs.length) : Nat) : Int) := rfl

lemma getFallback_neuRatio (pname : String) (rs : List SearchResult) :
    (getFallbackAnalysis pname rs).neutralRatio =
      100 - (getFallbackAnalysis pname rs).positiveRatio -
        (getFallbackAnalysis pname rs).negativeRatio := rfl

lemma getFallback_posComments (pname : String) (rs : List SearchResult) :
    (getFallbackAnalysis pname rs).positiveComments =
      (fallbackLoop initFallbackState rs).positiveComments := rfl

lemma getFallback_negComments (pname : String) (rs : List SearchResult) :
    (getFallbackAnalysis pname rs).negativeComments =
      (fallbackLoop initFallbackState rs).negativeComments := rfl

lemma getFallback_neuComments (pname : String) (rs : List SearchResult) :
    (getFallbackAnalysis pname rs).neutralComments =
      (fallbackLoop initFallbackState rs).neutralComments := rfl

lemma getFallback_empty (pname : String) :
    (getFallbackAnalysis pname []).positiveRatio = 0 ∧
      (getFallbackAnalysis pname []).negativeRatio = 0 ∧
      (getFallbackAnalysis pname []).neutralRatio = 100 := ⟨rfl, rfl, rfl⟩

/-- C1 (amended): the ratio sum is exactly 100 on the fallback path and hence
on every error path of `analyzeSentiment`; on the successful LLM path the
three ratios are returned as-is, so the sum equals the sum of the response's
ratios (100 exactly when the response's ratios sum to 100). -/
theorem ratio_sum_invariant (pname : String) (rs : List SearchResult)
    (a : LLMAnalysis) :
    ratioSum (analyzeSentiment pname rs LLMOutcome.llmError) = 100 ∧
      ratioSum (analyzeSentiment pname rs LLMOutcome.noContent) = 100 ∧
      ratioSum (analyzeSentiment pname rs LLMOutcome.unparseable) = 100 ∧
      ratioSum (getFallbackAnalysis pname rs) = 100 ∧
      ratioSum (analyzeSentiment pname rs (LLMOutcome.parsed a)) =
        a.positiveRatio + a.negativeRatio + a.neutralRatio := by
  have hf : ratioSum (getFallbackAnalysis pname rs) = 100 := by
    unfold ratioSum
    rw [getFallback_neuRatio]
    ring
  exact ⟨hf, hf, hf, hf, rfl⟩

/-- C1 counterexample: a well-formed parsed LLM response whose ratios are
30/30/30 yields a summary whose ratios sum to 90, not 100. -/
theorem ratio_sum_cex :
    ratioSum (analyzeSentiment "ChatGPT" [posSnippet]
      (LLMOutcome.parsed llm30)) ≠ 100 := by decide

/-- C2 (amended): with no previous score no change is ever flagged; with a
previous score but `notifyOnSignificantChange` unset no change is flagged
either; with a previous score `prev`, the flag set and at least one retrieved
result, the run computes `changeAmount = |current − prev|`, flags a
significant change exactly when the amount reaches the threshold (equality
counts), and the direction is up iff `current > prev`, else down. -/
theorem monitor_change_rule (i u : Nat) (pname : String) (freq : Frequency)
    (notif : Bool) (thr : Int) (em ia : Bool) (prev : Int) (r : SearchResult)
    (rest : List SearchResult) (outcome : LLMOutcome)
    (results : List SearchResult) :
    (executeMonitorTask ⟨i, u, pname, freq, notif, thr, em, ia, none⟩ results
        outcome).hasSignificantChange = false ∧
      (executeMonitorTask ⟨i, u, pname, freq, notif, thr, em, ia, none⟩ results
        outcome).changeAmount = 0 ∧
      (executeMonitorTask ⟨i, u, pname, freq, notif, thr, em, ia, none⟩ results
        outcome).changeDirection = none ∧
      (executeMonitorTask ⟨i, u, pname, freq, false, thr, em, ia, some prev⟩
        results outcome).hasSignificantChange = false ∧
      (executeMonitorTask ⟨i, u, pname, freq, false, thr, em, ia, some prev⟩
        results outcome).changeAmount = 0 ∧
      (executeMonitorTask ⟨i, u, pname, freq, true, thr, em, ia, some prev⟩
          (r :: rest) outcome).changeAmount =
        |(analyzeSentiment pname (r :: rest) outcome).positiveRatio - prev| ∧
      (executeMonitorTask ⟨i, u, pname, freq, true, thr, em, ia, some prev⟩
          (r :: rest) outcome).hasSignificantChange =
        decide (thr ≤
          |(analyzeSentiment pname (r :: rest) outcome).positiveRatio - prev|) ∧
      (executeMonitorTask ⟨i, u, pname, freq, true, thr, em, ia, some prev⟩
          (r :: rest) outcome).changeDirection =
        (if thr ≤
            |(analyzeSentiment pname (r :: rest) outcome).positiveRatio - prev| then
          some
            (if prev < (analyzeSentiment pname (r :: rest) outcome).positiveRatio then
              Direction.up
            else Direction.down)
        else none) := by
  refine ⟨?_, ?_, ?_, ?_, ?_, ?_, ?_, ?_⟩ <;>
    rcases results with _ | ⟨q, qs⟩ <;>
    simp [executeMonitorTask, noEffects]

/-- C2 counterexample: with previous score 50, current score 100 and
threshold 5 the magnitude 50 meets the threshold, yet no significant change
is flagged because the task's `notifyOnSignificantChange` is false. -/
theorem monitor_change_rule_cex :
    (executeMonitorTask task50 [posSnippet]
        (LLMOutcome.parsed llm100)).hasSignificantChange = false ∧
      (executeMonitorTask task50 [posSnippet]
        (LLMOutcome.parsed llm100)).changeAmount = 0 ∧
      (analyzeSentiment task50.productName [posSnippet]
        (LLMOutcome.parsed llm100)).positiveRatio = 100 ∧
      task50.lastSentimentScore = some 50 ∧
      (5 : Int) ≤ |(100 : Int) - 50| := by decide

/-- C3: `deduplicateResults` equals the spec-worded dedup (keep a snippet iff
its text exceeds 20 characters and its key did not occur on an earlier kept
snippet), preserves input order as a sublist, never lengthens the input,
emits pairwise distinct normalization keys, and keeps only texts longer than
20 characters. -/
theorem dedupe_conformance (results : List SearchResult) :
    deduplicateResults results = dedupeSpec results ∧
      (deduplicateResults results).Sublist results ∧
      (deduplicateResults results).length ≤ results.length ∧
      ((deduplicateResults results).map fun r => normKey r.text).Nodup ∧
      (deduplicateResults results).all
        (fun r => decide (20 < r.text.length)) = true :=
  ⟨dedupeGo_eq_specGo results [], dedupeGo_sublist results [],
    (dedupeGo_sublist results []).length_le, (dedupeGo_keys results []).1,
    dedupeGo_all_long results []⟩

/-- C4 (amended): the positive and negative ratios are `round(100·count/total)`
with `total = max(candidateCount, 1)`, the neutral ratio is
`100 − positive − negative`, an empty candidate list yields 0/0/100, the
positive and negative ratios lie in [0, 100], and the neutral ratio lies in
[−1, 100] — it can be −1 when both roundings round up. -/
theorem fallback_ratio_arithmetic (pname : String) (rs : List SearchResult) :
    (getFallbackAnalysis pname rs).positiveRatio =
        ((jsRound100 (fallbackLoop initFallbackState rs).positiveCount
          (if rs.length = 0 then 1 else rs.length) : Nat) : Int) ∧
      (getFallbackAnalysis pname rs).negativeRatio =
        ((jsRound100 (fallbackLoop initFallbackState rs).negativeCount
          (if rs.length = 0 then 1 else rs.length) : Nat) : Int) ∧
      (getFallbackAnalysis pname rs).neutralRatio =
        100 - (getFallbackAnalysis pname rs).positiveRatio -
          (getFallbackAnalysis pname rs).negativeRatio ∧
      (if rs.length = 0 then 1 else rs.length) = max rs.length 1 ∧
      (getFallbackAnalysis pname []).positiveRatio = 0 ∧
      (getFallbackAnalysis pname []).negativeRatio = 0 ∧
      (getFallbackAnalysis pname []).neutralRatio = 100 ∧
      0 ≤ (getFallbackAnalysis pname rs).positiveRatio ∧
      (getFallbackAnalysis pname rs).positiveRatio ≤ 100 ∧
      0 ≤ (getFallbackAnalysis pname rs).negativeRatio ∧
      (getFallbackAnalysis pname rs).negativeRatio ≤ 100 ∧
      (-1 : Int) ≤ (getFallbackAnalysis pname rs).neutralRatio ∧
      (getFallbackAnalysis pname rs).neutralRatio ≤ 100 := by
  obtain ⟨h1, h2, h3⟩ := fallbackLoop_counts rs initFallbackState
  rw [show initFallbackState.positiveCount = 0 from rfl, Nat.zero_add] at h1
  rw [show initFallbackState.negativeCount = 0 from rfl, Nat.zero_add] at h2
  have hpart := bucket_filter_partition rs
  have ht1 : 1 ≤ (if rs.length = 0 then 1 else rs.length) := by split <;> omega
  have hcsum :
      (fallbackLoop initFallbackState rs).positiveCount +
          (fallbackLoop initFallbackState rs).negativeCount ≤
        (if rs.length = 0 then 1 else rs.length) := by
    split <;> omega
  have hple := jsRound100_le (fallbackLoop initFallbackState rs).positiveCount
    (if rs.length = 0 then 1 else rs.length) ht1 (by omega)
  have hnle := jsRound100_le (fallbackLoop initFallbackState rs).negativeCount
    (if rs.length = 0 then 1 else rs.length) ht1 (by omega)
  have hsum := jsRound100_sum_le (fallbackLoop initFallbackState rs).positiveCount
    (fallbackLoop initFallbackState rs).negativeCount
    (if rs.length = 0 then 1 else rs.length) ht1 hcsum
  refine ⟨rfl, rfl, rfl, by split <;> omega, rfl, rfl, rfl, ?_, ?_, ?_, ?_, ?_, ?_⟩
  · rw [getFallback_posRatio]; omega
  · rw [getFallback_posRatio]; omega
  · rw [getFallback_negRatio]; omega
  · rw [getFallback_negRatio]; omega
  · rw [getFallback_neuRatio, getFallback_posRatio, getFallback_negRatio]; omega
  · rw [getFallback_neuRatio, getFallback_posRatio, getFallback_negRatio]; omega

/-- C4 counterexample: with 1 positive and 7 negative candidates the two
ratios round to 13 and 88, so the neutral ratio is −1 — outside [0, 100]. -/
theorem fallback_neutral_negative_cex :
    (getFallbackAnalysis "ChatGPT"
        (posSnippet :: List.replicate 7 negSnippet)).neutralRatio = -1 ∧
      (getFallbackAnalysis "ChatGPT"
        (posSnippet :: List.replicate 7 negSnippet)).neutralRatio < 0 := by
  decide

/-- C5 (amended): each exemplar list is the response's index list with
out-of-range indices dropped, truncated to the first five, and mapped in
response order to the candidates' text/source/author; duplicate indices are
not removed; at most five exemplars result and each is some candidate's
comment. -/
theorem getComments_shape (rs : List SearchResult) (idxs : List Int) :
    getComments rs idxs =
        ((idxs.filter fun i =>
            decide (1 ≤ i ∧ i ≤ (rs.length : Int))).take 5).map
          (fun i =>
            match rs[(i - 1).toNat]? with
            | some r => toComment r
            | none => { text := [], source := "", author := none }) ∧
      (getComments rs idxs).length =
        min ((idxs.filter fun i =>
          decide (1 ≤ i ∧ i ≤ (rs.length : Int))).length) 5 ∧
      (getComments rs idxs).length ≤ 5 ∧
      (getComments rs idxs).all
        (fun c => rs.any fun r => decide (toComment r = c)) = true := by
  refine ⟨rfl, ?_, ?_, ?_⟩
  · simp [getComments, Nat.min_comm]
  · simp only [getComments, List.length_map, List.length_take]
    omega
  · simp only [List.all_eq_true, List.any_eq_true, decide_eq_true_eq]
    intro c hc
    simp only [getComments] at hc
    obtain ⟨i, hi, hfi⟩ := List.mem_map.mp hc
    have hi1 : i ∈ idxs.filter fun i =>
        decide (1 ≤ i ∧ i ≤ (rs.length : Int)) := List.mem_of_mem_take hi
    have hq := List.of_mem_filter hi1
    rw [decide_eq_true_eq] at hq
    have hlt : (i - 1).toNat < rs.length := by omega
    rw [List.getElem?_eq_getElem hlt] at hfi
    exact ⟨rs[(i - 1).toNat], List.getElem_mem hlt, hfi⟩

/-- C5 counterexample: the duplicate index list [1, 1] over one candidate
yields that candidate's comment twice, while the spec's
dedup-before-truncation selection yields it once. -/
theorem getComments_dedupe_cex :
    getComments [posSnippet] [(1 : Int), 1] =
        [toComment posSnippet, toComment posSnippet] ∧
      getCommentsSpec [posSnippet] [(1 : Int), 1] = [toComment posSnippet] ∧
      getComments [posSnippet] [(1 : Int), 1] ≠
        getCommentsSpec [posSnippet] [(1 : Int), 1] := by decide

/-- C6: on every modelled error of the LLM interaction — the call throwing
(unreachable capability, timeout, provider error), a response without message
content, or unparseable content — `analyzeSentiment` returns exactly the
local fallback summary; being a total function it always produces a
`SentimentAnalysis` and never raises. -/
theorem classification_failure_fallback (pname : String)
    (rs : List SearchResult) :
    analyzeSentiment pname rs LLMOutcome.llmError = getFallbackAnalysis pname rs ∧
      analyzeSentiment pname rs LLMOutcome.noContent = getFallbackAnalysis pname rs ∧
      analyzeSentiment pname rs LLMOutcome.unparseable = getFallbackAnalysis pname rs :=
  ⟨rfl, rfl, rfl⟩

/-- C7 (amended): a parsed response is not validated for absent fields: with
all three exemplar index lists absent it is still accepted — its scalar
fields flow into the returned summary and the absent index lists are treated
as empty lists; only an absent message content or unparseable content are
treated as classification failures. -/
theorem parsed_response_not_validated (pname : String) (rs : List SearchResult)
    (label : Sentiment) (p n u : Int) (s : String) (themes : List String) :
    analyzeSentiment pname rs (LLMOutcome.parsed
        { overallSentiment := label, positiveRatio := p, negativeRatio := n,
          neutralRatio := u, summary := s, keyThemes := themes,
          positiveIndices := none, negativeIndices := none,
          neutralIndices := none }) =
      { overallSentiment := label, positiveRatio := p, negativeRatio := n,
        neutralRatio := u, summary := s, keyThemes := themes,
        positiveComments := [], negativeComments := [],
        neutralComments := [] } ∧
      analyzeSentiment pname rs LLMOutcome.noContent = getFallbackAnalysis pname rs ∧
      analyzeSentiment pname rs LLMOutcome.unparseable = getFallbackAnalysis pname rs :=
  ⟨rfl, rfl, rfl⟩

/-- C7 counterexample: a parsed response in which all three required exemplar
index lists are absent is not treated as a classification failure — the
returned summary differs from the local fallback result. -/
theorem missing_fields_cex :
    analyzeSentiment "ChatGPT" [posSnippet] (LLMOutcome.parsed llmNoIdx) ≠
      getFallbackAnalysis "ChatGPT" [posSnippet] := by decide

/-- C8: a monitored run with zero retrieved results persists no analysis
record, updates no subscription fields, flags no change and emits no
notification, and the interactive analyze route returns its no-data signal
instead of a summary. -/
theorem zero_results_noop (task : MonitorTask) (outcome : LLMOutcome)
    (pname : String) :
    executeMonitorTask task [] outcome = noEffects ∧
      (executeMonitorTask task [] outcome).analysisSaved = false ∧
      (executeMonitorTask task [] outcome).taskUpdated = false ∧
      (executeMonitorTask task [] outcome).newLastSentimentScore = none ∧
      (executeMonitorTask task [] outcome).hasSignificantChange = false ∧
      (executeMonitorTask task [] outcome).inAppNotified = false ∧
      (executeMonitorTask task [] outcome).ownerNotified = false ∧
      analyzeRoute pname [] outcome = none :=
  ⟨rfl, rfl, rfl, rfl, rfl, rfl, rfl, rfl⟩

/-- C9: the monitoring sweep records an outcome for every active task, in
order — a task whose run throws (`Except.error`, caught and logged by the
loop body) never prevents the remaining tasks from being processed. -/
theorem sweep_isolates_failures (run : MonitorTask → Except String RunEffects)
    (tasks : List MonitorTask) :
    (executeMonitoringTasks run tasks).map Prod.fst = tasks ∧
      (executeMonitoringTasks run tasks).length = tasks.length ∧
      executeMonitoringTasks run tasks = tasks.map fun t => (t, run t) := by
  induction tasks with
  | nil => exact ⟨rfl, rfl, rfl⟩
  | cons t rest ih =>
    obtain ⟨ih1, ih2, ih3⟩ := ih
    refine ⟨?_, ?_, ?_⟩
    · simp [executeMonitoringTasks, ih1]
    · simp [executeMonitoringTasks, ih2]
    · simp [executeMonitoringTasks, ih3]

/-- C10: the fallback loop's bucket counts are the sizes of the three
disjoint keyword-bucket classes of the input and sum to the input length, and
each bucket's exemplar list is exactly the first at-most-five candidates of
that bucket in input order. -/
theorem fallback_partition_exemplars (pname : String) (rs : List SearchResult) :
    (fallbackLoop initFallbackState rs).positiveCount =
        (rs.filter fun r => decide (bucketOf r = Bucket.positive)).length ∧
      (fallbackLoop initFallbackState rs).negativeCount =
        (rs.filter fun r => decide (bucketOf r = Bucket.negative)).length ∧
      (fallbackLoop initFallbackState rs).neutralCount =
        (rs.filter fun r => decide (bucketOf r = Bucket.neutral)).length ∧
      (fallbackLoop initFallbackState rs).positiveCount +
          (fallbackLoop initFallbackState rs).negativeCount +
          (fallbackLoop initFallbackState rs).neutralCount =
        rs.length ∧
      (getFallbackAnalysis pname rs).positiveComments =
        ((rs.filter fun r => decide (bucketOf r = Bucket.positive)).take 5).map
          toComment ∧
      (getFallbackAnalysis pname rs).negativeComments =
        ((rs.filter fun r => decide (bucketOf r = Bucket.negative)).take 5).map
          toComment ∧
      (getFallbackAnalysis pname rs).neutralComments =
        ((rs.filter fun r => decide (bucketOf r = Bucket.neutral)).take 5).map
          toComment := by
  have hfp : (fun r => decide (bucketOf r = Bucket.positive)) =
      fun r => hasPos r && !hasNeg r := funext bucketOf_pos
  have hfn : (fun r => decide (bucketOf r = Bucket.negative)) =
      fun r => hasNeg r && !hasPos r := funext bucketOf_neg
  have hfu : (fun r => decide (bucketOf r = Bucket.neutral)) =
      fun r => !(hasPos r && !hasNeg r) && !(hasNeg r && !hasPos r) :=
    funext bucketOf_neu
  obtain ⟨h1, h2, h3⟩ := fallbackLoop_counts rs initFallbackState
  rw [show initFallbackState.positiveCount = 0 from rfl, Nat.zero_add] at h1
  rw [show initFallbackState.negativeCount = 0 from rfl, Nat.zero_add] at h2
  rw [show initFallbackState.neutralCount = 0 from rfl, Nat.zero_add] at h3
  have hpart := bucket_filter_partition rs
  have hc1 := fallbackLoop_posComments rs initFallbackState
  have hc2 := fallbackLoop_negComments rs initFallbackState
  have hc3 := fallbackLoop_neuComments rs initFallbackState
  rw [show initFallbackState.positiveComments = ([] : List Comment) from rfl] at hc1
  rw [show initFallbackState.negativeComments = ([] : List Comment) from rfl] at hc2
  rw [show initFallbackState.neutralComments = ([] : List Comment) from rfl] at hc3
  simp only [List.nil_append, List.length_nil, Nat.sub_zero] at hc1 hc2 hc3
  refine ⟨?_, ?_, ?_, by omega, ?_, ?_, ?_⟩
  · rw [hfp, h1]
  · rw [hfn, h2]
  · rw [hfu, h3]
  · rw [getFallback_posComments, hc1, hfp, List.map_take]
  · rw [getFallback_negComments, hc2, hfn, List.map_take]
  · rw [getFallback_neuComments, hc3, hfu, List.map_take]

end AISent
